import Mathlib

/-!
Shallow embedding of the AWSDemo VPC management service
(`cmd/vpc/create/main.go` and `cmd/vpc/get/main.go`).

The two Lambda handlers are modelled as pure functions of an explicit
environment that records the outcome of each external call (EC2 CreateVpc,
DescribeAvailabilityZones, CreateSubnet; DynamoDB PutItem, Query, Scan).
Each handler returns its HTTP-shaped response together with the trace of
external calls it issued, so that claims about which calls happen (and
about the metadata-store state) can be stated.  Go strings are modelled as
Lean strings (sequences of characters); a Go map lookup that misses
returns the zero value `""`.  A Go index-out-of-range panic is modelled by
the handler producing `none` instead of a response.
-/

/-! ## Shared data model (both handlers declare these shapes) -/

/-- DynamoDB attribute values, as used by the two handlers
(`types.AttributeValueMemberS` / `L` / `M`; `N`/`BOOL` are included so that
a stored item can hold a non-string attribute that fails to decode). -/
inductive AttributeValue where
  | S (s : String)
  | N (n : String)
  | BOOL (b : Bool)
  | L (l : List AttributeValue)
  | M (m : List (String × AttributeValue))

/-- One DynamoDB item: a string-keyed attribute map. -/
abbrev Item := List (String × AttributeValue)

/-- Lookup of an attribute in an item (first binding wins, as in a Go map
where keys are unique). -/
def lookupAttr : Item → String → Option AttributeValue
  | [], _ => none
  | (k, v) :: rest, key => if k = key then some v else lookupAttr rest key

/-- `SubnetResult` of create/main.go (identical shape in get/main.go). -/
structure SubnetResult where
  subnetId : String
  cidrBlock : String
  availabilityZone : String
  name : String

/-- `Subnet` of create/main.go; the optional `availability_zone` JSON field
decodes to `""` when omitted, exactly as in Go. -/
structure Subnet where
  cidrBlock : String
  name : String
  availabilityZone : String

/-- `CreateVPCRequest` of create/main.go. -/
structure CreateVPCRequest where
  cidrBlock : String
  vpcName : String
  subnets : List Subnet

/-- `VPCResource` of get/main.go. -/
structure VPCResource where
  vpcId : String
  createdAt : String
  createdBy : String
  vpcCidr : String
  vpcName : String
  status : String
  subnets : List SubnetResult

/-- Go map lookup `m[k]` on a `map[string]string`: the zero value `""` is
returned when the key is absent.  The lookup is exact (case-sensitive). -/
def mapGet : List (String × String) → String → String
  | [], _ => ""
  | (k, v) :: rest, key => if k = key then v else mapGet rest key

/-! ## External-call trace and metadata-store semantics -/

/-- One external call issued by a handler. -/
inductive Call where
  | createVpcCall (cidr name : String)
  | describeAZsCall
  | createSubnetCall (vpcId cidr az name : String)
  | queryCall (vpcId : String)
  | scanCall
  | putCall (item : Item)

/-- The item written by a `PutItem` call, if the call is one. -/
def putItemOf : Call → Option Item
  | Call.putCall it => some it
  | _ => none

/-- All items written by `PutItem` calls in a trace. -/
def putItems (tr : List Call) : List Item :=
  tr.filterMap putItemOf

/-- Whether a call mutates the metadata store (only `PutItem` does; EC2
calls and DynamoDB `Query`/`Scan` are reads of other systems or of the
store). -/
def isMutatingCall : Call → Bool
  | Call.putCall _ => true
  | _ => false

/-- Partition-key attribute (`vpc_id`) of a stored item. -/
def keyOf (it : Item) : Option String :=
  match lookupAttr it "vpc_id" with
  | some (AttributeValue.S s) => some s
  | _ => none

/-- Sort-key attribute (`created_at`) of a stored item. -/
def sortKeyOf (it : Item) : String :=
  match lookupAttr it "created_at" with
  | some (AttributeValue.S s) => s
  | _ => ""

/-- DynamoDB `PutItem`: overwrites any existing item with the same primary
key (partition key `vpc_id`, sort key `created_at`). -/
def putItemTable (tbl : List Item) (it : Item) : List Item :=
  it :: tbl.filter (fun o => !(keyOf o == keyOf it && sortKeyOf o == sortKeyOf it))

/-- Effect of one external call on the metadata-store state.  EC2 calls and
store reads leave the table unchanged. -/
def applyCall (tbl : List Item) (c : Call) : List Item :=
  match c with
  | Call.putCall it => putItemTable tbl it
  | _ => tbl

/-- Effect of a whole call trace on the metadata-store state. -/
def applyTrace (tbl : List Item) (tr : List Call) : List Item :=
  tr.foldl applyCall tbl

/-! ## Create handler (`cmd/vpc/create/main.go`) -/

namespace VpcCreate

/-- `CreateVPCResponse` of create/main.go. -/
structure CreateVPCResponse where
  message : String
  vpcId : String
  vpcCidr : String
  subnets : List SubnetResult
  createdAt : String
  createdBy : String

/-- Body of an API Gateway response from the create handler: either the
`ErrorResponse` shape or the success shape. -/
inductive RespBody where
  | err (error message : String)
  | created (r : CreateVPCResponse)

/-- An API Gateway proxy response (status, headers, JSON body modelled
structurally). -/
structure Resp where
  statusCode : Nat
  headers : List (String × String)
  body : RespBody

/-- The constant headers set by both `successResponse` and `errorResponse`. -/
def corsHeaders : List (String × String) :=
  [("Content-Type", "application/json"), ("Access-Control-Allow-Origin", "*")]

/-- `errorResponse` of create/main.go. -/
def errorResponse (code : Nat) (msg details : String) : Resp :=
  { statusCode := code, headers := corsHeaders, body := RespBody.err msg details }

/-- `successResponse` of create/main.go (marshalling of the fixed response
struct never fails, so only the success shape is modelled). -/
def successResponse (code : Nat) (r : CreateVPCResponse) : Resp :=
  { statusCode := code, headers := corsHeaders, body := RespBody.created r }

/-- Outcomes of the external calls made during one create request:
`createVpc cidr name`, `describeAZs` (zones in "available" state, in
order), `createSubnet vpcId cidr az name`, `putItem item`, and the
`time.Now` timestamp string. -/
structure Env where
  createVpc : String → String → Except String String
  describeAZs : Except String (List String)
  createSubnet : String → String → String → String → Except String String
  putItem : Item → Except String Unit
  now : String

/-- The parts of an `events.APIGatewayProxyRequest` the create handler
reads: the header map, and the body.  JSON decoding (`json.Unmarshal`) is
external library code, so the request carries its outcome directly. -/
structure Request where
  headers : List (String × String)
  body : Except String CreateVPCRequest

/-- Go `apiKey[:20]` (header values are ASCII, so the byte slice is the
character prefix). -/
def take20 (s : String) : String := String.mk (s.data.take 20)

/-- Lines 82-88 of create/main.go: default the API key and truncate it. -/
def normalizeApiKey (v : String) : String :=
  let a := if v = "" then "api-user" else v
  if 20 < a.length then take20 a else a

/-- Line 81 of create/main.go: `request.Headers["x-api-key"]`, an exact Go
map lookup, followed by the default/truncate steps. -/
def resolveApiKey (headers : List (String × String)) : String :=
  normalizeApiKey (mapGet headers "x-api-key")

/-- The per-subnet half of `validateInput` (the indexed loop). -/
def validateSubnets : Nat → List Subnet → Option String
  | _, [] => none
  | i, s :: rest =>
    if s.cidrBlock = "" then some ("subnet[" ++ toString i ++ "]: cidr_block is required")
    else if s.name = "" then some ("subnet[" ++ toString i ++ "]: name is required")
    else validateSubnets (i + 1) rest

/-- `validateInput` of create/main.go; `some msg` is the returned error. -/
def validateInput (req : CreateVPCRequest) : Option String :=
  if req.cidrBlock = "" then some "cidr_block is required"
  else if req.vpcName = "" then some "vpc_name is required"
  else if req.subnets.length = 0 then some "at least one subnet is required"
  else validateSubnets 0 req.subnets

/-- Lines 181-188 of create/main.go: choose the availability zone for the
subnet at loop index `i`.  `none` models the Go index-out-of-range panic of
`availableAZs[0]` on an empty zone list. -/
def assignAZ (azs : List String) (i : Nat) (hint : String) : Option String :=
  if hint ≠ "" then some hint
  else if h : i < azs.length then some (azs.get ⟨i, h⟩)
  else azs[0]?

/-- Outcome of the subnet-creation loop. -/
inductive SubnetsOutcome where
  | ok (rs : List SubnetResult)
  | fail (msg : String)
  | panicked

/-- The `for i, subnet := range subnets` loop of `createSubnets`, started
at loop index `i`, together with the `CreateSubnet` calls it issues. -/
def createSubnetsFrom (env : Env) (vpcId : String) (azs : List String) :
    Nat → List Subnet → SubnetsOutcome × List Call
  | _, [] => (SubnetsOutcome.ok [], [])
  | i, s :: rest =>
    match assignAZ azs i s.availabilityZone with
    | none => (SubnetsOutcome.panicked, [])
    | some az =>
      match env.createSubnet vpcId s.cidrBlock az s.name with
      | Except.error e =>
        (SubnetsOutcome.fail ("failed to create subnet " ++ s.name ++ ": " ++ e),
         [Call.createSubnetCall vpcId s.cidrBlock az s.name])
      | Except.ok sid =>
        match createSubnetsFrom env vpcId azs (i + 1) rest with
        | (SubnetsOutcome.ok rs, calls) =>
          (SubnetsOutcome.ok ({ subnetId := sid, cidrBlock := s.cidrBlock,
                                availabilityZone := az, name := s.name } :: rs),
           Call.createSubnetCall vpcId s.cidrBlock az s.name :: calls)
        | (out, calls) =>
          (out, Call.createSubnetCall vpcId s.cidrBlock az s.name :: calls)

/-- `createSubnets` of create/main.go: describe the available zones, then
run the creation loop. -/
def createSubnets (env : Env) (vpcId : String) (subnets : List Subnet) :
    SubnetsOutcome × List Call :=
  match env.describeAZs with
  | Except.error e =>
    (SubnetsOutcome.fail ("failed to describe availability zones: " ++ e),
     [Call.describeAZsCall])
  | Except.ok azs =>
    match createSubnetsFrom env vpcId azs 0 subnets with
    | (out, calls) => (out, Call.describeAZsCall :: calls)

/-- The item built by `storeVPCMetadata` of create/main.go. -/
def buildVPCItem (vpcId : String) (req : CreateVPCRequest)
    (subnets : List SubnetResult) (createdAt createdBy : String) : Item :=
  [("vpc_id", AttributeValue.S vpcId),
   ("created_at", AttributeValue.S createdAt),
   ("created_by", AttributeValue.S createdBy),
   ("vpc_cidr", AttributeValue.S req.cidrBlock),
   ("vpc_name", AttributeValue.S req.vpcName),
   ("status", AttributeValue.S "created"),
   ("subnets", AttributeValue.L (subnets.map (fun s => AttributeValue.M
      [("subnet_id", AttributeValue.S s.subnetId),
       ("cidr_block", AttributeValue.S s.cidrBlock),
       ("availability_zone", AttributeValue.S s.availabilityZone),
       ("name", AttributeValue.S s.name)])))]

/-- `handler` of create/main.go.  Returns the response (`none` when the
code panics before producing one) and the trace of external calls. -/
def handler (env : Env) (req : Request) : Option Resp × List Call :=
  match req.body with
  | Except.error e => (some (errorResponse 400 "Invalid JSON" e), [])
  | Except.ok vpcRequest =>
    match validateInput vpcRequest with
    | some msg => (some (errorResponse 400 "Validation failed" msg), [])
    | none =>
      let apiKey := resolveApiKey req.headers
      match env.createVpc vpcRequest.cidrBlock vpcRequest.vpcName with
      | Except.error e =>
        (some (errorResponse 500 "Failed to create VPC" ("failed to create VPC: " ++ e)),
         [Call.createVpcCall vpcRequest.cidrBlock vpcRequest.vpcName])
      | Except.ok vpcId =>
        match createSubnets env vpcId vpcRequest.subnets with
        | (SubnetsOutcome.panicked, calls) =>
          (none, Call.createVpcCall vpcRequest.cidrBlock vpcRequest.vpcName :: calls)
        | (SubnetsOutcome.fail msg, calls) =>
          (some (errorResponse 500 "Failed to create subnets" msg),
           Call.createVpcCall vpcRequest.cidrBlock vpcRequest.vpcName :: calls)
        | (SubnetsOutcome.ok rs, calls) =>
          let item := buildVPCItem vpcId vpcRequest rs env.now apiKey
          match env.putItem item with
          | Except.error e =>
            (some (errorResponse 500 "Failed to store metadata"
                     ("failed to store VPC metadata: " ++ e)),
             (Call.createVpcCall vpcRequest.cidrBlock vpcRequest.vpcName :: calls)
               ++ [Call.putCall item])
          | Except.ok _ =>
            (some (successResponse 201
                     { message := "VPC created successfully", vpcId := vpcId,
                       vpcCidr := vpcRequest.cidrBlock, subnets := rs,
                       createdAt := env.now, createdBy := apiKey }),
             (Call.createVpcCall vpcRequest.cidrBlock vpcRequest.vpcName :: calls)
               ++ [Call.putCall item])

end VpcCreate

/-! ## Get/List handler (`cmd/vpc/get/main.go`) -/

namespace VpcGet

/-- Body of an API Gateway response from the get handler. -/
inductive RespBody where
  | err (error message : String)
  | vpc (r : VPCResource)
  | list (vpcs : List VPCResource) (count : Nat)

/-- An API Gateway proxy response of the get handler. -/
structure Resp where
  statusCode : Nat
  headers : List (String × String)
  body : RespBody

/-- The constant headers set by both response builders of get/main.go. -/
def corsHeaders : List (String × String) :=
  [("Content-Type", "application/json"), ("Access-Control-Allow-Origin", "*")]

/-- `errorResponse` of get/main.go. -/
def errorResponse (code : Nat) (msg details : String) : Resp :=
  { statusCode := code, headers := corsHeaders, body := RespBody.err msg details }

/-- `successResponse` of get/main.go. -/
def successResponse (code : Nat) (b : RespBody) : Resp :=
  { statusCode := code, headers := corsHeaders, body := b }

/-- `attributevalue` decoding of one string-typed struct field: an absent
attribute leaves the Go zero value `""`; an attribute of a non-string type
fails the whole decode. -/
def decodeStringField (m : List (String × AttributeValue)) (k : String) : Option String :=
  match lookupAttr m k with
  | none => some ""
  | some (AttributeValue.S s) => some s
  | some _ => none

/-- `attributevalue` decoding of one element of the `subnets` list into a
`SubnetResult`: the element must be a map. -/
def decodeSubnet (av : AttributeValue) : Option SubnetResult :=
  match av with
  | AttributeValue.M m => do
    let sid ← decodeStringField m "subnet_id"
    let c ← decodeStringField m "cidr_block"
    let az ← decodeStringField m "availability_zone"
    let n ← decodeStringField m "name"
    some { subnetId := sid, cidrBlock := c, availabilityZone := az, name := n }
  | _ => none

/-- `attributevalue.UnmarshalMap` of an item into a `VPCResource`
(`none` models the unmarshal error). -/
def unmarshalVPC (item : Item) : Option VPCResource :=
  do
  let vid ← decodeStringField item "vpc_id"
  let ca ← decodeStringField item "created_at"
  let cb ← decodeStringField item "created_by"
  let cidr ← decodeStringField item "vpc_cidr"
  let vn ← decodeStringField item "vpc_name"
  let st ← decodeStringField item "status"
  let subs ←
    match lookupAttr item "subnets" with
    | none => some []
    | some (AttributeValue.L l) => l.mapM decodeSubnet
    | some _ => none
  some { vpcId := vid, createdAt := ca, createdBy := cb, vpcCidr := cidr,
         vpcName := vn, status := st, subnets := subs }

/-- DynamoDB `Query` with `vpc_id = v`, `ScanIndexForward=false`,
`Limit=1`: among the items whose partition key is `v`, the one with the
greatest sort key (`created_at`), as a list of at most one item. -/
def queryLatest (tbl : List Item) (v : String) : List Item :=
  match (tbl.filter (fun it => keyOf it == some v)).foldl
      (fun acc it =>
        match acc with
        | none => some it
        | some a => if sortKeyOf a < sortKeyOf it then some it else some a)
      none with
  | none => []
  | some it => [it]

/-- The metadata-store state visible to the get handler, plus injected
failures of the two DynamoDB read calls (`some e` means the call fails
with error text `e`). -/
structure Env where
  table : List Item
  queryFails : Option String
  scanFails : Option String

/-- The parts of an `events.APIGatewayProxyRequest` the get handler reads. -/
structure Request where
  pathParameters : List (String × String)
  queryStringParameters : List (String × String)

/-- `getVPC` of get/main.go. -/
def getVPC (env : Env) (vpcId : String) : Resp × List Call :=
  match env.queryFails with
  | some e => (errorResponse 500 "Failed to query DynamoDB" e, [Call.queryCall vpcId])
  | none =>
    match queryLatest env.table vpcId with
    | [] =>
      (errorResponse 404 "VPC not found" ("VPC with ID " ++ vpcId ++ " does not exist"),
       [Call.queryCall vpcId])
    | item :: _ =>
      match unmarshalVPC item with
      | none => (errorResponse 500 "Failed to parse VPC data" "unmarshal error",
                 [Call.queryCall vpcId])
      | some vpc => (successResponse 200 (RespBody.vpc vpc), [Call.queryCall vpcId])

/-- `listVPCs` of get/main.go: scan, drop items that fail to decode,
return the rest with their count. -/
def listVPCs (env : Env) (_qp : List (String × String)) : Resp × List Call :=
  match env.scanFails with
  | some e => (errorResponse 500 "Failed to scan DynamoDB" e, [Call.scanCall])
  | none =>
    let vpcs := env.table.filterMap unmarshalVPC
    (successResponse 200 (RespBody.list vpcs vpcs.length), [Call.scanCall])

/-- `handler` of get/main.go: dispatch on the `vpc_id` path parameter. -/
def handler (env : Env) (req : Request) : Resp × List Call :=
  let vpcId := mapGet req.pathParameters "vpc_id"
  if vpcId ≠ "" then getVPC env vpcId
  else listVPCs env req.queryStringParameters

end VpcGet

/-! ## Statement helpers and concrete fixtures -/

namespace VpcCreate

/-- Status code of a create-handler result, when a response was produced. -/
def respStatus (h : Option Resp × List Call) : Option Nat :=
  Option.map Resp.statusCode h.1

/-- The `(cidr_block, name)` pairs of the subnets in a successful create
response, in order. -/
def respSubnetPairs (o : Option Resp) : Option (List (String × String)) :=
  match o with
  | some r =>
    match r.body with
    | RespBody.created cr => some (cr.subnets.map (fun s => (s.cidrBlock, s.name)))
    | _ => none
  | none => none

/-- The `created_by` field of a successful create response. -/
def respCreatedBy (o : Option Resp) : Option String :=
  match o with
  | some r =>
    match r.body with
    | RespBody.created cr => some cr.createdBy
    | _ => none
  | none => none

/-- The `created_by` attribute of every item written to the store by a
trace, in order. -/
def storedCreatedBys (tr : List Call) : List (Option AttributeValue) :=
  (putItems tr).map (fun it => lookupAttr it "created_by")

/-- A handler run that left the metadata store untouched: it issued no
`PutItem` call, so replaying its trace fixes every table. -/
def noStoreEffect (h : Option Resp × List Call) : Prop :=
  putItems h.2 = [] ∧ ∀ tbl, applyTrace tbl h.2 = tbl

/-- The resolved availability zone of the subnet result at position `i`,
when the creation loop succeeded. -/
def azAt : SubnetsOutcome → Nat → Option String
  | SubnetsOutcome.ok rs, i => (rs[i]?).map (fun r => r.availabilityZone)
  | _, _ => none

end VpcCreate

/-- An environment in which every provider and store call succeeds. -/
def okEnv : VpcCreate.Env :=
  { createVpc := fun _ _ => Except.ok "vpc-123",
    describeAZs := Except.ok ["us-east-1a", "us-east-1b"],
    createSubnet := fun _ _ _ _ => Except.ok "subnet-1",
    putItem := fun _ => Except.ok (),
    now := "2026-01-01T00:00:00Z" }

/-- The end-to-end scenario request of the spec (one subnet, no zone hint). -/
def demoReq : CreateVPCRequest :=
  { cidrBlock := "10.0.0.0/16", vpcName := "demo",
    subnets := [{ cidrBlock := "10.0.1.0/24", name := "a", availabilityZone := "" }] }

/-- A request body with an empty display name (fails validation). -/
def badReq : CreateVPCRequest :=
  { cidrBlock := "10.0.0.0/16", vpcName := "", subnets := demoReq.subnets }

/-- A three-subnet request exercising every zone-assignment branch. -/
def threeSubnetReq : CreateVPCRequest :=
  { cidrBlock := "10.0.0.0/16", vpcName := "demo3",
    subnets := [{ cidrBlock := "10.0.1.0/24", name := "a", availabilityZone := "" },
                { cidrBlock := "10.0.2.0/24", name := "b", availabilityZone := "eu-west-1c" },
                { cidrBlock := "10.0.3.0/24", name := "c", availabilityZone := "" }] }

/-- A stored item in exactly the shape the create handler writes. -/
def goodItem : Item :=
  VpcCreate.buildVPCItem "vpc-1" demoReq
    [{ subnetId := "subnet-1", cidrBlock := "10.0.1.0/24",
       availabilityZone := "us-east-1a", name := "a" }]
    "2026-01-01T00:00:00Z" "api-user"

/-- A stored item whose `vpc_id` attribute is a number, so that decoding
it into a `VPCResource` fails. -/
def badItem : Item := [("vpc_id", AttributeValue.N "5")]

/-- A get-handler environment over a table with one decodable and one
undecodable item, with both reads healthy. -/
def listEnv : VpcGet.Env :=
  { table := [goodItem, badItem], queryFails := none, scanFails := none }

/-- A list request: no `vpc_id` path parameter. -/
def listReq : VpcGet.Request :=
  { pathParameters := [], queryStringParameters := [] }

/-- A get-by-id request for an identifier that is not in `listEnv`. -/
def missReq : VpcGet.Request :=
  { pathParameters := [("vpc_id", "vpc-9")], queryStringParameters := [] }

/-- The demo create request with no headers. -/
def reqDemo : VpcCreate.Request := { headers := [], body := Except.ok demoReq }

/-- The demo create request with the API-key header name in mixed case. -/
def reqUpperKey : VpcCreate.Request :=
  { headers := [("X-Api-Key", "alice")], body := Except.ok demoReq }

/-- The demo create request with the API-key header name in lower case. -/
def reqLowerKey : VpcCreate.Request :=
  { headers := [("x-api-key", "alice")], body := Except.ok demoReq }

/-- The demo create request with an unrelated header. -/
def reqOtherHeader : VpcCreate.Request :=
  { headers := [("foo", "bar")], body := Except.ok demoReq }

/-- The demo create request with a 26-character API key. -/
def reqLongKey : VpcCreate.Request :=
  { headers := [("x-api-key", "abcdefghijklmnopqrstuvwxyz")], body := Except.ok demoReq }

/-- A create request whose parsed body fails validation. -/
def reqBad : VpcCreate.Request := { headers := [], body := Except.ok badReq }

/-- The three-subnet create request with no headers. -/
def reqThree : VpcCreate.Request := { headers := [], body := Except.ok threeSubnetReq }

/-- A healthy environment whose provider reports zero available zones. -/
def emptyAZEnv : VpcCreate.Env := { okEnv with describeAZs := Except.ok [] }

/-! ## Helper lemmas -/

/-- `filterMap` keeps exactly the elements on which `f` succeeds. -/
theorem length_filterMap_eq_length_filter {α β : Type} (f : α → Option β) :
    ∀ l : List α, (l.filterMap f).length = (l.filter (fun a => (f a).isSome)).length := by
  intro l
  induction l with
  | nil => rfl
  | cons a rest ih =>
    simp only [List.filterMap_cons, List.filter_cons]
    cases h : f a <;> simp [h, ih]

namespace VpcCreate

theorem validateSubnets_isSome :
    ∀ (l : List Subnet) (i : Nat), (∃ s ∈ l, s.cidrBlock = "" ∨ s.name = "") →
      (validateSubnets i l).isSome := by
  intro l
  induction l with
  | nil => intro i h; simp at h
  | cons s rest ih =>
    intro i h
    unfold validateSubnets
    by_cases hc : s.cidrBlock = ""
    · simp [hc]
    · by_cases hn : s.name = ""
      · simp [hc, hn]
      · simp only [hc, hn, if_false]
        apply ih
        rcases h with ⟨t, ht, hp⟩
        rcases List.mem_cons.mp ht with rfl | ht2
        · rcases hp with h1 | h1
          · exact absurd h1 hc
          · exact absurd h1 hn
        · exact ⟨t, ht2, hp⟩

theorem validateInput_isSome (r : CreateVPCRequest)
    (h : r.cidrBlock = "" ∨ r.vpcName = "" ∨ r.subnets = [] ∨
         ∃ s ∈ r.subnets, s.cidrBlock = "" ∨ s.name = "") :
    (validateInput r).isSome := by
  unfold validateInput
  split_ifs with h1 h2 h3
  · simp
  · simp
  · simp
  · rcases h with hc | hn | hs | hsub
    · exact absurd hc h1
    · exact absurd hn h2
    · exact absurd (by simp [hs]) h3
    · exact validateSubnets_isSome r.subnets 0 hsub

theorem putItems_createSubnetsFrom (env : Env) (vpcId : String) (azs : List String) :
    ∀ (subnets : List Subnet) (i : Nat),
      putItems (createSubnetsFrom env vpcId azs i subnets).2 = [] := by
  intro subnets
  induction subnets with
  | nil => intro i; rfl
  | cons s rest ih =>
    intro i
    cases hA : assignAZ azs i s.availabilityZone with
    | none => simp [createSubnetsFrom, hA, putItems]
    | some az =>
      cases hC : env.createSubnet vpcId s.cidrBlock az s.name with
      | error e => simp [createSubnetsFrom, hA, hC, putItems, putItemOf]
      | ok sid =>
        have h2 := ih (i + 1)
        cases hR : createSubnetsFrom env vpcId azs (i + 1) rest with
        | mk out calls =>
          rw [hR] at h2
          cases out <;> simp only [createSubnetsFrom, hA, hC, hR] <;>
            simpa [putItems, putItemOf, List.filterMap_cons] using h2

theorem putItems_createSubnets (env : Env) (vpcId : String) (subnets : List Subnet) :
    putItems (createSubnets env vpcId subnets).2 = [] := by
  cases hD : env.describeAZs with
  | error e => simp [createSubnets, hD, putItems, putItemOf]
  | ok azs =>
    have h2 := putItems_createSubnetsFrom env vpcId azs subnets 0
    cases hR : createSubnetsFrom env vpcId azs 0 subnets with
    | mk out calls =>
      rw [hR] at h2
      simp only [createSubnets, hD, hR]
      simpa [putItems, putItemOf, List.filterMap_cons] using h2

end VpcCreate

theorem applyTrace_of_no_put :
    ∀ (tr : List Call), putItems tr = [] → ∀ tbl, applyTrace tbl tr = tbl := by
  intro tr
  induction tr with
  | nil => intro _ tbl; rfl
  | cons c rest ih =>
    intro h tbl
    have hc : putItemOf c = none ∧ putItems rest = [] := by
      cases hco : putItemOf c with
      | none => simpa [putItems, List.filterMap_cons, hco] using h
      | some it => simp [putItems, List.filterMap_cons, hco] at h
    have happ : applyCall tbl c = tbl := by
      cases c <;> simp_all [applyCall, putItemOf]
    simp only [applyTrace, List.foldl_cons, happ]
    exact ih hc.2 tbl

namespace VpcCreate

theorem assignAZ_isSome (azs : List String) (i : Nat) (hint : String)
    (h : hint = "" → azs ≠ []) : ∃ az, assignAZ azs i hint = some az := by
  unfold assignAZ
  by_cases hh : hint = ""
  · have hne : azs ≠ [] := h hh
    subst hh
    simp only [ne_eq, not_true_eq_false, if_false]
    by_cases hi : i < azs.length
    · exact ⟨azs.get ⟨i, hi⟩, by simp [hi]⟩
    · cases azs with
      | nil => exact absurd rfl hne
      | cons a as => exact ⟨a, by rw [dif_neg hi]; simp⟩
  · exact ⟨hint, by simp [hh]⟩

theorem createSubnetsFrom_ok (env : Env) (vpcId : String) (azs : List String)
    (hcs : ∀ v c a n, ∃ sid, env.createSubnet v c a n = Except.ok sid) :
    ∀ (subnets : List Subnet) (i : Nat),
      (∀ s ∈ subnets, s.availabilityZone = "" → azs ≠ []) →
      ∃ rs, (createSubnetsFrom env vpcId azs i subnets).1 = SubnetsOutcome.ok rs ∧
        rs.map (fun r => (r.cidrBlock, r.name))
          = subnets.map (fun s => (s.cidrBlock, s.name)) ∧
        ∀ j : Nat, (rs[j]?).map (fun r => r.availabilityZone)
          = (subnets[j]?).bind (fun s => assignAZ azs (i + j) s.availabilityZone) := by
  intro subnets
  induction subnets with
  | nil =>
    intro i _
    exact ⟨[], rfl, rfl, fun j => by simp⟩
  | cons s rest ih =>
    intro i hnp
    obtain ⟨az, hA⟩ := assignAZ_isSome azs i s.availabilityZone
      (hnp s (List.mem_cons_self s rest))
    obtain ⟨sid, hC⟩ := hcs vpcId s.cidrBlock az s.name
    obtain ⟨rs, h1, h2, h3⟩ := ih (i + 1) (fun t ht => hnp t (List.mem_cons_of_mem s ht))
    cases hR : createSubnetsFrom env vpcId azs (i + 1) rest with
    | mk out calls =>
      rw [hR] at h1
      simp only at h1
      subst h1
      refine ⟨{ subnetId := sid, cidrBlock := s.cidrBlock,
                availabilityZone := az, name := s.name } :: rs, ?_, ?_, ?_⟩
      · simp [createSubnetsFrom, hA, hC, hR]
      · simpa using h2
      · intro j
        cases j with
        | zero => simp [hA]
        | succ j =>
          have := h3 j
          simpa [Nat.add_assoc, Nat.add_comm 1 j] using this

theorem createSubnets_ok (env : Env) (vpcId : String) (azs : List String)
    (subnets : List Subnet)
    (henv : env.describeAZs = Except.ok azs)
    (hcs : ∀ v c a n, ∃ sid, env.createSubnet v c a n = Except.ok sid)
    (hnp : ∀ s ∈ subnets, s.availabilityZone = "" → azs ≠ []) :
    ∃ rs, (createSubnets env vpcId subnets).1 = SubnetsOutcome.ok rs ∧
      rs.map (fun r => (r.cidrBlock, r.name))
        = subnets.map (fun s => (s.cidrBlock, s.name)) ∧
      ∀ j : Nat, (rs[j]?).map (fun r => r.availabilityZone)
        = (subnets[j]?).bind (fun s => assignAZ azs j s.availabilityZone) := by
  obtain ⟨rs, h1, h2, h3⟩ := createSubnetsFrom_ok env vpcId azs hcs subnets 0 hnp
  cases hR : createSubnetsFrom env vpcId azs 0 subnets with
  | mk out calls =>
    rw [hR] at h1
    simp only at h1
    subst h1
    refine ⟨rs, ?_, h2, ?_⟩
    · simp [createSubnets, henv, hR]
    · intro j
      simpa using h3 j

theorem handler_ok (env : Env) (req : Request) (r : CreateVPCRequest)
    (vid : String) (azs : List String)
    (hb : req.body = Except.ok r)
    (hv : validateInput r = none)
    (hcv : env.createVpc r.cidrBlock r.vpcName = Except.ok vid)
    (henv : env.describeAZs = Except.ok azs)
    (hcs : ∀ v c a n, ∃ sid, env.createSubnet v c a n = Except.ok sid)
    (hnp : ∀ s ∈ r.subnets, s.availabilityZone = "" → azs ≠ [])
    (hput : ∀ it, env.putItem it = Except.ok ()) :
    ∃ rs, rs.map (fun x => (x.cidrBlock, x.name))
        = r.subnets.map (fun s => (s.cidrBlock, s.name)) ∧
      (handler env req).1 = some (successResponse 201
        { message := "VPC created successfully", vpcId := vid,
          vpcCidr := r.cidrBlock, subnets := rs,
          createdAt := env.now, createdBy := resolveApiKey req.headers }) ∧
      putItems (handler env req).2
        = [buildVPCItem vid r rs env.now (resolveApiKey req.headers)] := by
  obtain ⟨rs, h1, h2, _⟩ := createSubnets_ok env vid azs r.subnets henv hcs hnp
  cases hS : createSubnets env vid r.subnets with
  | mk out calls =>
    rw [hS] at h1
    simp only at h1
    subst h1
    have hpc : List.filterMap putItemOf calls = [] := by
      have h4 := putItems_createSubnets env vid r.subnets
      rw [hS] at h4
      simpa [putItems] using h4
    refine ⟨rs, h2, ?_, ?_⟩
    · simp [handler, hb, hv, hcv, hS, hput]
    · simp [handler, hb, hv, hcv, hS, hput, putItems, List.filterMap_append,
            List.filterMap_cons, putItemOf, hpc]

theorem createSubnetsFrom_panicked (env : Env) (vpcId : String)
    (hcs : ∀ v c a n, ∃ sid, env.createSubnet v c a n = Except.ok sid) :
    ∀ (subnets : List Subnet) (i : Nat), (∃ s ∈ subnets, s.availabilityZone = "") →
      (createSubnetsFrom env vpcId [] i subnets).1 = SubnetsOutcome.panicked := by
  intro subnets
  induction subnets with
  | nil => intro i h; simp at h
  | cons s rest ih =>
    intro i h
    by_cases hh : s.availabilityZone = ""
    · have hA : assignAZ [] i s.availabilityZone = none := by
        simp [assignAZ, hh]
      simp [createSubnetsFrom, hA]
    · obtain ⟨sid, hC⟩ := hcs vpcId s.cidrBlock s.availabilityZone s.name
      have hA : assignAZ [] i s.availabilityZone = some s.availabilityZone := by
        simp [assignAZ, hh]
      have hrest : ∃ t ∈ rest, t.availabilityZone = "" := by
        rcases h with ⟨t, ht, hp⟩
        rcases List.mem_cons.mp ht with rfl | ht2
        · exact absurd hp hh
        · exact ⟨t, ht2, hp⟩
      have hp2 := ih (i + 1) hrest
      cases hR : createSubnetsFrom env vpcId [] (i + 1) rest with
      | mk out calls =>
        rw [hR] at hp2
        simp only at hp2
        subst hp2
        simp [createSubnetsFrom, hA, hC, hR]

end VpcCreate

namespace VpcCreate

theorem normalizeApiKey_empty : normalizeApiKey "" = "api-user" := rfl

theorem normalizeApiKey_short (v : String) (hne : v ≠ "") (hlen : v.length ≤ 20) :
    normalizeApiKey v = v := by
  simp [normalizeApiKey, hne, Nat.not_lt.mpr hlen]

theorem normalizeApiKey_long (v : String) (hlen : 20 < v.length) :
    normalizeApiKey v = take20 v := by
  have hne : v ≠ "" := by
    intro h
    subst h
    simp [String.length] at hlen
  simp [normalizeApiKey, hne, hlen]

theorem take20_length (v : String) (hlen : 20 ≤ v.length) :
    (take20 v).length = 20 := by
  have h2 : 20 ≤ v.data.length := hlen
  show (v.data.take 20).length = 20
  rw [List.length_take]
  exact Nat.min_eq_left h2

theorem lookupAttr_buildVPCItem_created_by (vid : String) (r : CreateVPCRequest)
    (rs : List SubnetResult) (ca cb : String) :
    lookupAttr (buildVPCItem vid r rs ca cb) "created_by"
      = some (AttributeValue.S cb) := rfl

end VpcCreate

/-! ## Claims -/

namespace VpcCreate

/-- C1 counterexample: two create requests identical except for the casing
of the API-key header name produce different `created_by` values, because
`request.Headers["x-api-key"]` is an exact Go map lookup.  With the header
sent as "X-Api-Key" the lookup misses and the placeholder is used; sent as
"x-api-key" the value "alice" is used. -/
theorem create_header_casing_counterexample :
    respCreatedBy (handler okEnv reqUpperKey).1 = some "api-user" ∧
    respCreatedBy (handler okEnv reqLowerKey).1 = some "alice" := by
  constructor <;> rfl

/-- C1 (amended): the creator identifier is derived from the header map by
an exact, case-sensitive lookup of the key "x-api-key": two create requests
with the same parsed body whose header maps agree on that exact key produce
identical handler results (response and call trace); header names differing
in casing are distinct keys and may produce different creator identifiers. -/
theorem create_header_lookup_exact (env : Env) (r1 r2 : Request)
    (hb : r1.body = r2.body)
    (hk : mapGet r1.headers "x-api-key" = mapGet r2.headers "x-api-key") :
    handler env r1 = handler env r2 := by
  have hak : resolveApiKey r1.headers = resolveApiKey r2.headers := by
    unfold resolveApiKey
    rw [hk]
  simp only [handler, hb, hak]

/-- C1 witness: two concrete requests with different header maps but the
same exact "x-api-key" binding get the same handler result. -/
theorem create_header_lookup_exact_witness :
    handler okEnv reqUpperKey = handler okEnv reqOtherHeader :=
  create_header_lookup_exact okEnv reqUpperKey reqOtherHeader rfl rfl

/-- C3: a create request whose parsed body has an empty address range, an
empty display name, an empty subnet list, or some subnet with an empty
address range or empty name is answered with HTTP 400, and the handler
makes no provider call and no store call (empty call trace). -/
theorem create_validation_rejects_without_calls (env : Env)
    (req : Request) (r : CreateVPCRequest)
    (hb : req.body = Except.ok r)
    (h : r.cidrBlock = "" ∨ r.vpcName = "" ∨ r.subnets = [] ∨
         ∃ s ∈ r.subnets, s.cidrBlock = "" ∨ s.name = "") :
    respStatus (handler env req) = some 400 ∧ (handler env req).2 = [] := by
  obtain ⟨m, hm⟩ := Option.isSome_iff_exists.mp (validateInput_isSome r h)
  constructor <;> simp [handler, hb, hm, respStatus, errorResponse]

/-- C3 witness: the concrete request with an empty display name is
rejected with 400 and an empty call trace. -/
theorem create_validation_rejects_without_calls_witness :
    respStatus (handler okEnv reqBad) = some 400 ∧ (handler okEnv reqBad).2 = [] :=
  create_validation_rejects_without_calls okEnv reqBad badReq rfl
    (Or.inr (Or.inl rfl))

end VpcCreate

namespace VpcCreate

/-- C2: for the subnet at position `i` of a create request, `createSubnets`
uses a supplied availability-zone hint verbatim; with the hint omitted it
uses the zone at index `i` of the available-zone list when `i` is in
range, and the zone at index 0 otherwise. -/
theorem create_subnet_zone_assignment (env : Env) (vpcId : String)
    (azs : List String) (subnets : List Subnet)
    (henv : env.describeAZs = Except.ok azs)
    (hcs : ∀ v c a n, ∃ sid, env.createSubnet v c a n = Except.ok sid)
    (hnp : ∀ s ∈ subnets, s.availabilityZone = "" → azs ≠ [])
    (i : Nat) (s : Subnet) (hi : subnets[i]? = some s) :
    (s.availabilityZone ≠ "" →
       azAt (createSubnets env vpcId subnets).1 i = some s.availabilityZone) ∧
    (s.availabilityZone = "" → i < azs.length →
       azAt (createSubnets env vpcId subnets).1 i = azs[i]?) ∧
    (s.availabilityZone = "" → azs.length ≤ i →
       azAt (createSubnets env vpcId subnets).1 i = azs[0]?) := by
  obtain ⟨rs, h1, _, h3⟩ := createSubnets_ok env vpcId azs subnets henv hcs hnp
  have hA : azAt (createSubnets env vpcId subnets).1 i
      = assignAZ azs i s.availabilityZone := by
    rw [h1]
    have h4 := h3 i
    rw [hi] at h4
    simpa [azAt] using h4
  refine ⟨?_, ?_, ?_⟩
  · intro hh
    rw [hA]
    simp [assignAZ, hh]
  · intro hh hlt
    rw [hA]
    simp [assignAZ, hh, hlt, List.getElem?_eq_getElem]
  · intro hh hge
    rw [hA]
    simp [assignAZ, hh, Nat.not_lt.mpr hge]

/-- C2 witness: in the three-subnet request the hinted subnet at position 1
gets its hint verbatim. -/
theorem create_subnet_zone_assignment_witness :
    azAt (createSubnets okEnv "vpc-123" threeSubnetReq.subnets).1 1
      = some "eu-west-1c" :=
  (create_subnet_zone_assignment okEnv "vpc-123" ["us-east-1a", "us-east-1b"]
      threeSubnetReq.subnets rfl (fun _ _ _ _ => ⟨"subnet-1", rfl⟩)
      (fun _ _ _ => by simp) 1
      { cidrBlock := "10.0.2.0/24", name := "b", availabilityZone := "eu-west-1c" }
      rfl).1 (by decide)

/-- C5: a valid create request with N subnets for which every provider and
store call succeeds (and the provider reports a zone for every hint-less
subnet) is answered with HTTP 201, and the response subnet list carries
exactly the `(cidr_block, name)` pairs of the request, in order. -/
theorem create_success_shape (env : Env) (req : Request) (r : CreateVPCRequest)
    (vid : String) (azs : List String)
    (hb : req.body = Except.ok r)
    (hv : validateInput r = none)
    (hcv : env.createVpc r.cidrBlock r.vpcName = Except.ok vid)
    (henv : env.describeAZs = Except.ok azs)
    (hcs : ∀ v c a n, ∃ sid, env.createSubnet v c a n = Except.ok sid)
    (hnp : ∀ s ∈ r.subnets, s.availabilityZone = "" → azs ≠ [])
    (hput : ∀ it, env.putItem it = Except.ok ()) :
    respStatus (handler env req) = some 201 ∧
    respSubnetPairs (handler env req).1
      = some (r.subnets.map (fun s => (s.cidrBlock, s.name))) := by
  obtain ⟨rs, h1, h2, _⟩ := handler_ok env req r vid azs hb hv hcv henv hcs hnp hput
  constructor
  · simp [respStatus, h2, successResponse]
  · rw [h2]
    simp [respSubnetPairs, successResponse, h1]

/-- C5 witness: the end-to-end demo request succeeds with 201 and one
subnet entry carrying the requested cidr and name. -/
theorem create_success_shape_witness :
    respStatus (handler okEnv reqDemo) = some 201 ∧
    respSubnetPairs (handler okEnv reqDemo).1
      = some (demoReq.subnets.map (fun s => (s.cidrBlock, s.name))) :=
  create_success_shape okEnv reqDemo demoReq "vpc-123" ["us-east-1a", "us-east-1b"]
    rfl rfl rfl rfl (fun _ _ _ _ => ⟨"subnet-1", rfl⟩) (fun _ _ _ => by simp)
    (fun _ => rfl)

/-- C6: for a create request that completes, the creator identifier in the
response and in the stored item is "api-user" when the x-api-key lookup
yields no value, the value itself when its length is at most 20, and its
first 20 characters (exactly length 20) when longer. -/
theorem create_created_by_derivation (env : Env) (req : Request)
    (r : CreateVPCRequest) (vid : String) (azs : List String)
    (hb : req.body = Except.ok r)
    (hv : validateInput r = none)
    (hcv : env.createVpc r.cidrBlock r.vpcName = Except.ok vid)
    (henv : env.describeAZs = Except.ok azs)
    (hcs : ∀ v c a n, ∃ sid, env.createSubnet v c a n = Except.ok sid)
    (hnp : ∀ s ∈ r.subnets, s.availabilityZone = "" → azs ≠ [])
    (hput : ∀ it, env.putItem it = Except.ok ()) :
    (mapGet req.headers "x-api-key" = "" →
       respCreatedBy (handler env req).1 = some "api-user" ∧
       storedCreatedBys (handler env req).2
         = [some (AttributeValue.S "api-user")]) ∧
    (mapGet req.headers "x-api-key" ≠ "" →
     (mapGet req.headers "x-api-key").length ≤ 20 →
       respCreatedBy (handler env req).1 = some (mapGet req.headers "x-api-key") ∧
       storedCreatedBys (handler env req).2
         = [some (AttributeValue.S (mapGet req.headers "x-api-key"))]) ∧
    (20 < (mapGet req.headers "x-api-key").length →
       respCreatedBy (handler env req).1
         = some (take20 (mapGet req.headers "x-api-key")) ∧
       (take20 (mapGet req.headers "x-api-key")).length = 20 ∧
       storedCreatedBys (handler env req).2
         = [some (AttributeValue.S (take20 (mapGet req.headers "x-api-key")))]) := by
  obtain ⟨rs, _, h2, h3⟩ := handler_ok env req r vid azs hb hv hcv henv hcs hnp hput
  have hresp : respCreatedBy (handler env req).1
      = some (resolveApiKey req.headers) := by
    rw [h2]
    rfl
  have hstore : storedCreatedBys (handler env req).2
      = [some (AttributeValue.S (resolveApiKey req.headers))] := by
    simp [storedCreatedBys, h3, lookupAttr_buildVPCItem_created_by]
  refine ⟨?_, ?_, ?_⟩
  · intro h0
    have hk : resolveApiKey req.headers = "api-user" := by
      unfold resolveApiKey
      rw [h0, normalizeApiKey_empty]
    rw [hresp, hstore, hk]
    exact ⟨rfl, rfl⟩
  · intro hne hlen
    have hk : resolveApiKey req.headers = mapGet req.headers "x-api-key" := by
      unfold resolveApiKey
      exact normalizeApiKey_short _ hne hlen
    rw [hresp, hstore, hk]
    exact ⟨rfl, rfl⟩
  · intro hlen
    have hk : resolveApiKey req.headers = take20 (mapGet req.headers "x-api-key") := by
      unfold resolveApiKey
      exact normalizeApiKey_long _ hlen
    rw [hresp, hstore, hk]
    exact ⟨rfl, take20_length _ (Nat.le_of_lt hlen), rfl⟩

/-- C6 witness: a 26-character API key is truncated to its first 20
characters in both the response and the stored item. -/
theorem create_created_by_derivation_witness :
    respCreatedBy (handler okEnv reqLongKey).1
      = some (take20 (mapGet reqLongKey.headers "x-api-key")) ∧
    (take20 (mapGet reqLongKey.headers "x-api-key")).length = 20 ∧
    storedCreatedBys (handler okEnv reqLongKey).2
      = [some (AttributeValue.S (take20 (mapGet reqLongKey.headers "x-api-key")))] :=
  (create_created_by_derivation okEnv reqLongKey demoReq "vpc-123"
      ["us-east-1a", "us-east-1b"] rfl rfl rfl rfl
      (fun _ _ _ _ => ⟨"subnet-1", rfl⟩) (fun _ _ _ => by simp)
      (fun _ => rfl)).2.2 (by decide)

end VpcCreate

namespace VpcCreate

/-- C4: the create handler aborts at the first failing step with no
compensation: on a JSON-parse failure or validation failure it returns 400,
on a CreateVpc, DescribeAvailabilityZones, or CreateSubnet failure it
returns 500, and in every such case no `PutItem` call is issued, so the
metadata-store state is unchanged by the trace. -/
theorem create_aborts_before_put (env : Env) (req : Request) :
    (∀ e, req.body = Except.error e →
       respStatus (handler env req) = some 400 ∧
       putItems (handler env req).2 = [] ∧
       ∀ tbl, applyTrace tbl (handler env req).2 = tbl) ∧
    (∀ r m, req.body = Except.ok r → validateInput r = some m →
       respStatus (handler env req) = some 400 ∧
       putItems (handler env req).2 = [] ∧
       ∀ tbl, applyTrace tbl (handler env req).2 = tbl) ∧
    (∀ r e, req.body = Except.ok r → validateInput r = none →
       env.createVpc r.cidrBlock r.vpcName = Except.error e →
       respStatus (handler env req) = some 500 ∧
       putItems (handler env req).2 = [] ∧
       ∀ tbl, applyTrace tbl (handler env req).2 = tbl) ∧
    (∀ r vid e, req.body = Except.ok r → validateInput r = none →
       env.createVpc r.cidrBlock r.vpcName = Except.ok vid →
       env.describeAZs = Except.error e →
       respStatus (handler env req) = some 500 ∧
       putItems (handler env req).2 = [] ∧
       ∀ tbl, applyTrace tbl (handler env req).2 = tbl) ∧
    (∀ r vid m, req.body = Except.ok r → validateInput r = none →
       env.createVpc r.cidrBlock r.vpcName = Except.ok vid →
       (createSubnets env vid r.subnets).1 = SubnetsOutcome.fail m →
       respStatus (handler env req) = some 500 ∧
       putItems (handler env req).2 = [] ∧
       ∀ tbl, applyTrace tbl (handler env req).2 = tbl) := by
  refine ⟨?_, ?_, ?_, ?_, ?_⟩
  · intro e hb
    have hput0 : putItems (handler env req).2 = [] := by
      simp [handler, hb, putItems]
    exact ⟨by simp [handler, hb, respStatus, errorResponse], hput0,
      fun tbl => applyTrace_of_no_put _ hput0 tbl⟩
  · intro r m hb hm
    have hput0 : putItems (handler env req).2 = [] := by
      simp [handler, hb, hm, putItems]
    exact ⟨by simp [handler, hb, hm, respStatus, errorResponse], hput0,
      fun tbl => applyTrace_of_no_put _ hput0 tbl⟩
  · intro r e hb hv hcv
    have hput0 : putItems (handler env req).2 = [] := by
      simp [handler, hb, hv, hcv, putItems, putItemOf]
    exact ⟨by simp [handler, hb, hv, hcv, respStatus, errorResponse], hput0,
      fun tbl => applyTrace_of_no_put _ hput0 tbl⟩
  · intro r vid e hb hv hcv hD
    have hS : createSubnets env vid r.subnets
        = (SubnetsOutcome.fail ("failed to describe availability zones: " ++ e),
           [Call.describeAZsCall]) := by
      simp [createSubnets, hD]
    have hput0 : putItems (handler env req).2 = [] := by
      simp [handler, hb, hv, hcv, hS, putItems, putItemOf]
    exact ⟨by simp [handler, hb, hv, hcv, hS, respStatus, errorResponse], hput0,
      fun tbl => applyTrace_of_no_put _ hput0 tbl⟩
  · intro r vid m hb hv hcv hS1
    cases hS : createSubnets env vid r.subnets with
    | mk out calls =>
      rw [hS] at hS1
      simp only at hS1
      subst hS1
      have hpc : List.filterMap putItemOf calls = [] := by
        have h4 := putItems_createSubnets env vid r.subnets
        rw [hS] at h4
        simpa [putItems] using h4
      have hput0 : putItems (handler env req).2 = [] := by
        simp [handler, hb, hv, hcv, hS, putItems, List.filterMap_cons,
              putItemOf, hpc]
      exact ⟨by simp [handler, hb, hv, hcv, hS, respStatus, errorResponse], hput0,
        fun tbl => applyTrace_of_no_put _ hput0 tbl⟩

/-- C4 witness: the request with an empty display name is rejected with
400, no item is written, and the trace fixes every store state. -/
theorem create_aborts_before_put_witness :
    respStatus (handler okEnv reqBad) = some 400 ∧
    putItems (handler okEnv reqBad).2 = [] ∧
    ∀ tbl, applyTrace tbl (handler okEnv reqBad).2 = tbl :=
  (create_aborts_before_put okEnv reqBad).2.1 badReq "vpc_name is required" rfl rfl

/-- C10: the zone-assignment fallback is unguarded against an empty zone
list: when the zone listing succeeds with zero zones and some subnet omits
its hint (all subnet-creation calls succeeding), the handler panics
(produces no response at all) instead of returning an error response. -/
theorem create_panics_on_empty_zone_list (env : Env) (req : Request)
    (r : CreateVPCRequest) (vid : String)
    (hb : req.body = Except.ok r)
    (hv : validateInput r = none)
    (hcv : env.createVpc r.cidrBlock r.vpcName = Except.ok vid)
    (henv : env.describeAZs = Except.ok [])
    (hcs : ∀ v c a n, ∃ sid, env.createSubnet v c a n = Except.ok sid)
    (hs : ∃ s ∈ r.subnets, s.availabilityZone = "") :
    (handler env req).1 = none := by
  have hp := createSubnetsFrom_panicked env vid hcs r.subnets 0 hs
  cases hR : createSubnetsFrom env vid [] 0 r.subnets with
  | mk out calls =>
    rw [hR] at hp
    simp only at hp
    subst hp
    have hS : createSubnets env vid r.subnets
        = (SubnetsOutcome.panicked, Call.describeAZsCall :: calls) := by
      simp [createSubnets, henv, hR]
    simp [handler, hb, hv, hcv, hS]

/-- C10 witness: the demo request (one hint-less subnet) against a provider
reporting zero zones produces no response. -/
theorem create_panics_on_empty_zone_list_witness :
    (handler emptyAZEnv reqDemo).1 = none :=
  create_panics_on_empty_zone_list emptyAZEnv reqDemo demoReq "vpc-123"
    rfl rfl rfl rfl (fun _ _ _ _ => ⟨"subnet-1", rfl⟩)
    ⟨{ cidrBlock := "10.0.1.0/24", name := "a", availabilityZone := "" },
     List.mem_singleton.mpr rfl, rfl⟩

end VpcCreate

namespace VpcGet

/-- C7: with a non-empty `vpc_id` path parameter the get handler returns
500 when the store query fails, 404 when the query succeeds with zero
items for that key, and 200 with the decoded record when an item is found
and decodes; with an absent or empty `vpc_id` it performs the full-list
scan instead. -/
theorem get_status_codes (env : Env) (req : Request) :
    (mapGet req.pathParameters "vpc_id" ≠ "" →
      (∀ e, env.queryFails = some e → (handler env req).1.statusCode = 500) ∧
      (env.queryFails = none →
        queryLatest env.table (mapGet req.pathParameters "vpc_id") = [] →
        (handler env req).1.statusCode = 404) ∧
      (∀ it rest vpc, env.queryFails = none →
        queryLatest env.table (mapGet req.pathParameters "vpc_id") = it :: rest →
        unmarshalVPC it = some vpc →
        (handler env req).1 = successResponse 200 (RespBody.vpc vpc))) ∧
    (mapGet req.pathParameters "vpc_id" = "" →
      handler env req = listVPCs env req.queryStringParameters) := by
  constructor
  · intro hne
    refine ⟨?_, ?_, ?_⟩
    · intro e hq
      simp [handler, hne, getVPC, hq, errorResponse]
    · intro hq hempty
      simp [handler, hne, getVPC, hq, hempty, errorResponse]
    · intro it rest vpc hq hres hdec
      simp [handler, hne, getVPC, hq, hres, hdec, successResponse]
  · intro heq
    simp [handler, heq]

/-- C7 witness: querying an identifier with no stored item yields 404. -/
theorem get_status_codes_witness :
    (handler listEnv missReq).1.statusCode = 404 :=
  ((get_status_codes listEnv missReq).1 (by decide)).2.1 rfl rfl

/-- C8: when the scan succeeds, the list request is answered with 200, the
returned records are exactly the items that decode successfully (failures
are skipped), and the reported count equals the length of that list. -/
theorem list_count_equals_decoded (env : Env) (req : Request)
    (hpath : mapGet req.pathParameters "vpc_id" = "")
    (hscan : env.scanFails = none) :
    handler env req
      = (successResponse 200 (RespBody.list (env.table.filterMap unmarshalVPC)
            (env.table.filterMap unmarshalVPC).length), [Call.scanCall]) ∧
    (env.table.filterMap unmarshalVPC).length
      = (env.table.filter (fun it => (unmarshalVPC it).isSome)).length := by
  constructor
  · simp [handler, hpath, listVPCs, hscan]
  · exact length_filterMap_eq_length_filter unmarshalVPC env.table

/-- C8 witness: over a table with one decodable and one undecodable item,
the list response carries the decoded items and their count. -/
theorem list_count_equals_decoded_witness :
    handler listEnv listReq
      = (successResponse 200 (RespBody.list (listEnv.table.filterMap unmarshalVPC)
            (listEnv.table.filterMap unmarshalVPC).length), [Call.scanCall]) ∧
    (listEnv.table.filterMap unmarshalVPC).length
      = (listEnv.table.filter (fun it => (unmarshalVPC it).isSome)).length :=
  list_count_equals_decoded listEnv listReq rfl rfl

/-- C9: get/list requests are side-effect free and idempotent: the handler
issues only non-mutating store calls, replaying its trace leaves the store
state unchanged, and re-invoking the handler on the resulting state returns
the identical result. -/
theorem get_reads_are_pure (env : Env) (req : Request) :
    ((handler env req).2.all (fun c => !isMutatingCall c)) = true ∧
    applyTrace env.table (handler env req).2 = env.table ∧
    handler { env with table := applyTrace env.table (handler env req).2 } req
      = handler env req := by
  have htr : (handler env req).2 = [Call.queryCall (mapGet req.pathParameters "vpc_id")]
      ∨ (handler env req).2 = [Call.scanCall] := by
    by_cases hne : mapGet req.pathParameters "vpc_id" = ""
    · right
      cases hsc : env.scanFails <;> simp [handler, hne, listVPCs, hsc]
    · left
      cases hq : env.queryFails with
      | some e => simp [handler, hne, getVPC, hq]
      | none =>
        cases hres : queryLatest env.table (mapGet req.pathParameters "vpc_id") with
        | nil => simp [handler, hne, getVPC, hq, hres]
        | cons it rest =>
          cases hdec : unmarshalVPC it <;>
            simp [handler, hne, getVPC, hq, hres, hdec]
  have happ : applyTrace env.table (handler env req).2 = env.table := by
    rcases htr with h | h <;> rw [h] <;> rfl
  refine ⟨?_, happ, ?_⟩
  · rcases htr with h | h <;> rw [h] <;> rfl
  · rw [happ]

end VpcGet

namespace VpcCreate

/-- C5 counterexample: for the valid one-subnet demo request against an
environment in which every provider and store call succeeds but the zone
listing reports zero available zones, the handler does not answer 201 with
one subnet entry: it panics and produces no response at all. -/
theorem create_success_shape_counterexample :
    validateInput demoReq = none ∧
    emptyAZEnv.describeAZs = Except.ok [] ∧
    emptyAZEnv.createSubnet "vpc-123" "10.0.1.0/24" "zone" "a" = Except.ok "subnet-1" ∧
    emptyAZEnv.putItem [] = Except.ok () ∧
    respStatus (handler emptyAZEnv reqDemo) = none := by
  exact ⟨rfl, rfl, rfl, rfl, rfl⟩

end VpcCreate
